import Mathlib

/-!
Shallow embedding of the `rzepa` movie backend.

Source files embedded:
- `src/rzepa/movies/views.py`  (`MovieViewSet.create`, `MovieViewSet.list`,
  `TopMoviesView.get`)
- `src/rzepa/comments/models.py` (`Comment`)

The Django object-relational layer and the HTTP plumbing are embedded by
their documented semantics: a queryset is a list of rows, `filter(*qs)`
before `annotate(Count(...))` constrains the join (so with a relation
filter present the join is inner and rows of the parent with no matching
child disappear), `order_by("-total_comments")` is a descending sort, and
responses are `(status, body)` pairs.  The movie/rating serializers, the
movie model and the metadata client are not under `src/`; they enter the
embedding as an explicit environment of functions, plus persistence
effects modelled from the spec where noted.
-/

namespace Rzepa

/-- A stored movie row (`movies.models.Movie`): unique identifier and
title; further provider metadata fields are irrelevant to the claims. -/
structure Movie where
  id : Nat
  title : String
  deriving DecidableEq, Repr

/-- A stored comment row (`comments/models.py`): creation timestamp
(embedded as an integer timeline), owning movie, author, text. -/
structure Comment where
  created_at : Int
  movie_id : Nat
  author : String
  text : String
  deriving DecidableEq, Repr

/-- A stored rating row (`movies.models.Rating`): owning movie, source
label, value string. -/
structure Rating where
  movie_id : Nat
  source : String
  value : String
  deriving DecidableEq, Repr

/-- The persistent store: the three relations plus the id counter used
when a new movie row is inserted. -/
structure DB where
  movies : List Movie
  ratings : List Rating
  comments : List Comment
  nextId : Nat
  deriving Repr

/-- One entry of the provider's `Ratings` list, a `{Source, Value}` pair.
`movie_id` is absent (`none`) as fetched; `MovieViewSet.create` mutates
the dict in place (`rating["movie_id"] = movie.id`) on the
duplicate-title path before validating it. -/
structure RatingData where
  Source : String
  Value : String
  movie_id : Option Nat
  deriving DecidableEq, Repr

/-- The record returned by the metadata provider: a canonical `Title`,
arbitrary descriptive fields, and a `Ratings` list. -/
structure ProviderRecord where
  Title : String
  extra : List (String × String)
  Ratings : List RatingData
  deriving DecidableEq, Repr

/-- The provider record after `data.pop("Ratings", [])`: what the movie
serializer validates and saves. -/
structure MovieData where
  Title : String
  extra : List (String × String)
  deriving DecidableEq, Repr

/-- The collaborators of `MovieViewSet.create` that live outside `src/`
(`OMDbAPIClient.fetch`, `MovieSerializer`, `RatingSerializer`).
`movieValidError d = some detail` means `serializer.is_valid()` is false
with that offending detail; `movieDataError d = some txt` means
`serializer.save()` raises `DataError(txt)`; `ratingValid` is
`rating_serializer.is_valid()` and `ratingDataError` tells whether
`rating_serializer.save()` raises `DataError`. -/
structure Env where
  fetch : String → ProviderRecord
  movieValidError : MovieData → Option String
  movieDataError : MovieData → Option String
  ratingValid : RatingData → Bool
  ratingDataError : RatingData → Bool

/-- A response body: either an error object `{"string": s}` or the
provider record echoed back with its `Ratings` list reattached. -/
inductive RespBody where
  | err (s : String)
  | record (Title : String) (extra : List (String × String)) (Ratings : List RatingData)
  deriving DecidableEq, Repr

/-- Outcome of `MovieViewSet.create`: an HTTP response, or an unhandled
Python exception escaping the view (`crash`). -/
inductive CreateOutcome where
  | resp (status : Nat) (body : RespBody)
  | crash (msg : String)
  deriving DecidableEq, Repr

/-- Modelled from the spec: persisting a validated new movie
(`serializer.save()` of the missing `MovieSerializer`) appends exactly
one row bearing the provider's canonical title ("persist the movie if
not already present (unique by canonical title)"). -/
def saveMovie (db : DB) (d : MovieData) : Movie × DB :=
  let m : Movie := ⟨db.nextId, d.Title⟩
  (m, { db with movies := db.movies ++ [m], nextId := db.nextId + 1 })

/-- The rating-attachment loop of `MovieViewSet.create` (views.py lines
35-43), run on the already-mutated ratings: validate each rating, save
it, and on `DataError` silently continue.  Modelled from the spec: a
successful `rating_serializer.save()` appends one rating row. -/
def attachRatings (env : Env) (mid : Nat) (rs : List RatingData) (db : DB) : DB :=
  rs.foldl
    (fun acc r =>
      if env.ratingValid r then
        if env.ratingDataError r then acc
        else { acc with ratings := acc.ratings ++ [⟨mid, r.Source, r.Value⟩] }
      else acc)
    db

/-- `MovieViewSet.create` (views.py lines 18-47), translated
branch-for-branch.  The result is the outcome, the store after the
request, and the list of titles passed to the provider (`fetch` calls).
Note two literal features of the source: on the new-movie path the
rating loop is never entered, and when `serializer.is_valid()` is false
the `else` branch evaluates `str(e)` with `e` unbound, so the request
dies with a `NameError` instead of producing a response. -/
def create (env : Env) (db : DB) (reqTitle : Option String) :
    CreateOutcome × DB × List String :=
  match reqTitle with
  | none => (.resp 400 (.err "Title is a required parameter"), db, [])
  | some t =>
    let data := env.fetch t
    let ratings := data.Ratings
    let md : MovieData := ⟨data.Title, data.extra⟩
    match env.movieValidError md with
    | some _ =>
      (.crash "NameError: name e is not defined", db, [t])
    | none =>
      match db.movies.find? (fun m => m.title == data.Title) with
      | none =>
        match env.movieDataError md with
        | some errText => (.resp 400 (.err errText.trim), db, [t])
        | none =>
          let (_, db1) := saveMovie db md
          (.resp 201 (.record data.Title data.extra ratings), db1, [t])
      | some movie =>
        let mutated := ratings.map (fun r => { r with movie_id := some movie.id })
        let db1 := attachRatings env movie.id mutated db
        (.resp 201 (.record data.Title data.extra mutated), db1, [t])

/-- `a == b &&` matching of a candidate needle at the head of the
haystack. -/
def leadMatch : List Char → List Char → Bool
  | [], _ => true
  | _ :: _, [] => false
  | n :: ns, h :: hs => n == h && leadMatch ns hs

/-- Does `needle` occur as a contiguous run somewhere in the haystack? -/
def hasSub (needle : List Char) : List Char → Bool
  | [] => needle.isEmpty
  | h :: hs => leadMatch needle (h :: hs) || hasSub needle hs

/-- Lower-cased character list of a string, the case-folding side of the
`icontains` lookup. -/
def lowerChars (s : String) : List Char :=
  s.data.map Char.toLower

/-- Django's `title__icontains=needle` lookup: case-insensitive
substring match. -/
def icontains (hay needle : String) : Bool :=
  hasSub (lowerChars needle) (lowerChars hay)

/-- `MovieViewSet.list` (views.py lines 49-53): optional `title` query
parameter filters by case-insensitive substring; the store is returned
untouched. -/
def listMovies (db : DB) (titleParam : Option String) : List Movie × DB :=
  match titleParam with
  | none => (db.movies, db)
  | some t => (db.movies.filter (fun m => icontains m.title t), db)

/-- Does a comment timestamp satisfy both optional inclusive bounds
(an absent bound imposes no restriction)? -/
def inBounds (dateFrom dateTo : Option Int) (t : Int) : Bool :=
  (match dateFrom with | none => true | some a => decide (a ≤ t)) &&
  (match dateTo with | none => true | some b => decide (t ≤ b))

/-- Number of comments of movie `mid` whose creation time satisfies both
supplied bounds. -/
def countQualifying (db : DB) (dateFrom dateTo : Option Int) (mid : Nat) : Nat :=
  (db.comments.filter
    (fun c => c.movie_id == mid && inBounds dateFrom dateTo c.created_at)).length

/-- One row of the aggregated queryset
`.values("id", "total_comments")`. -/
structure CountRow where
  movie_id : Nat
  total_comments : Nat
  deriving DecidableEq, Repr

/-- The aggregated queryset of `TopMoviesView.get` (views.py lines
60-71) before ordering: `Movie.objects.filter(*filters)
.annotate(total_comments=Count("comments"))`.  With no filter the join
is a left outer join, so every movie appears, counting all its comments;
with a relation filter present the join is inner, so a movie appears
only if it has at least one comment satisfying every supplied bound, and
`Count` counts exactly those comments (the tests
`test_top_movies_only_including_comments_with_*_time_range` pin this
down). -/
def baseRows (db : DB) (dateFrom dateTo : Option Int) : List CountRow :=
  let rows := db.movies.map (fun m => ⟨m.id, countQualifying db dateFrom dateTo m.id⟩)
  if dateFrom.isNone && dateTo.isNone then rows
  else rows.filter (fun r => decide (0 < r.total_comments))

/-- The comparison behind `order_by("-total_comments")`: larger counts
first. -/
def byCountDesc (a b : CountRow) : Prop :=
  b.total_comments ≤ a.total_comments

instance : DecidableRel byCountDesc :=
  fun a b => Nat.decLe b.total_comments a.total_comments

instance : IsTotal CountRow byCountDesc :=
  ⟨fun a b => le_total b.total_comments a.total_comments⟩

instance : IsTrans CountRow byCountDesc :=
  ⟨fun _ _ _ h1 h2 => le_trans h2 h1⟩

/-- `order_by("-total_comments")`: a descending sort on the count (the
relative order of tied rows is unspecified in the source; the embedding
fixes one). -/
def sortDesc (l : List CountRow) : List CountRow :=
  List.insertionSort byCountDesc l

/-- One emitted record of the ranking response:
`{"movie_id": id, "rank": r, "total_comments": c}`. -/
structure RankedRow where
  movie_id : Nat
  rank : Nat
  total_comments : Nat
  deriving DecidableEq, Repr

/-- The rank-assignment loop of `TopMoviesView.get` (views.py lines
72-81), translated statement-for-statement: walking the rows with state
`last_count`/`last_rank`, the rank is bumped when `not last_rank or
element["total_comments"] < last_count`. -/
def rankLoop : List CountRow → Nat → Nat → List RankedRow
  | [], _, _ => []
  | e :: rest, last_count, last_rank =>
    let r := if last_rank = 0 ∨ e.total_comments < last_count
             then last_rank + 1 else last_rank
    ⟨e.movie_id, r, e.total_comments⟩ :: rankLoop rest e.total_comments r

/-- `TopMoviesView.get` (views.py lines 57-82): aggregate, sort
descending by count, then assign ranks with the loop started at
`last_count = 0`, `last_rank = 0`. -/
def topMovies (db : DB) (dateFrom dateTo : Option Int) : List RankedRow :=
  rankLoop (sortDesc (baseRows db dateFrom dateTo)) 0 0

/-! Concrete fixtures, mirroring the scenarios of `movies/tests.py`. -/

/-- An empty store. -/
def dbEmpty : DB := ⟨[], [], [], 1⟩

/-- A store holding a single movie and no comments. -/
def dbOneMovie : DB := ⟨[⟨1, "Godfather"⟩], [], [], 2⟩

/-- Three movies with 3, 2 and 0 comments
(`test_more_than_one_movie_with_comments`). -/
def dbThree : DB :=
  ⟨[⟨1, "Godfather"⟩, ⟨2, "The Room"⟩, ⟨3, "Fantastic Four"⟩],
   [],
   [⟨0, 1, "Anonymous", "It was ok"⟩,
    ⟨5, 1, "Anonymous", "I fell asleep after half an hour"⟩,
    ⟨9, 1, "Anonymous", "I think Marlon Brando was hot"⟩,
    ⟨2, 2, "Anonymous", "Masterpiece beyond our understanding"⟩,
    ⟨7, 2, "Anonymous", "New look at modern drama"⟩],
   4⟩

/-- A provider record with one rating
(`test_post_with_title_returns_created_movie_data`). -/
def recCK : ProviderRecord :=
  ⟨"Citizen Kane", [("Production", "RKO Radio Pictures")],
   [⟨"Internet Movie Database", "8.4/10", none⟩]⟩

/-- An environment where everything succeeds: the provider always
returns `recCK`, both serializers accept, neither save raises. -/
def envOK : Env :=
  ⟨fun _ => recCK, fun _ => none, fun _ => none, fun _ => true, fun _ => false⟩

/-- An environment whose movie serializer rejects every record. -/
def envInvalid : Env :=
  { envOK with movieValidError := fun _ => some "field too long" }

/-- An environment where the movie save raises a `DataError`
(`test_broken_movie_data_returned`). -/
def envDataErr : Env :=
  { envOK with
    movieDataError := fun _ => some " value too long for type character varying(128) " }

/-- A store already holding the movie `recCK` describes. -/
def dbCK : DB := ⟨[⟨1, "Citizen Kane"⟩], [], [], 2⟩

/-! ### Lemmas about the rank-assignment loop -/

/-- The loop carries each row's identifier and count through to the
emitted record untouched, whatever the accumulator. -/
theorem rankLoop_pairs (l : List CountRow) (lc lr : Nat) :
    (rankLoop l lc lr).map (fun x => (x.movie_id, x.total_comments)) =
      l.map (fun c => (c.movie_id, c.total_comments)) := by
  induction l generalizing lc lr with
  | nil => rfl
  | cons e rest ih => simp [rankLoop, ih]

/-- Counts are carried through the loop unchanged. -/
theorem rankLoop_counts (l : List CountRow) (lc lr : Nat) :
    (rankLoop l lc lr).map RankedRow.total_comments =
      l.map CountRow.total_comments := by
  induction l generalizing lc lr with
  | nil => rfl
  | cons e rest ih => simp [rankLoop, ih]

/-- Once the accumulated rank is nonzero, every later record's rank is
the previous record's rank, bumped by exactly one exactly when its count
is strictly below the previous record's count. -/
theorem rankLoop_chain_aux (l : List CountRow) (p : RankedRow) (hp : p.rank ≠ 0) :
    List.Chain'
      (fun a b => b.rank = if b.total_comments < a.total_comments then a.rank + 1 else a.rank)
      (p :: rankLoop l p.total_comments p.rank) := by
  induction l generalizing p with
  | nil => simp [rankLoop]
  | cons e rest ih =>
    by_cases h : e.total_comments < p.total_comments
    · have hc : (p.rank = 0 ∨ e.total_comments < p.total_comments) := Or.inr h
      simp only [rankLoop, if_pos hc]
      refine List.chain'_cons.mpr ⟨?_, ?_⟩
      · simpa using (if_pos h).symm
      · exact ih ⟨e.movie_id, p.rank + 1, e.total_comments⟩ (Nat.succ_ne_zero _)
    · have hc : ¬ (p.rank = 0 ∨ e.total_comments < p.total_comments) := by
        rintro (h0 | hlt)
        · exact hp h0
        · exact h hlt
      simp only [rankLoop, if_neg hc]
      refine List.chain'_cons.mpr ⟨?_, ?_⟩
      · simpa using (if_neg h).symm
      · exact ih ⟨e.movie_id, p.rank, e.total_comments⟩ hp

/-- The rank chain for the loop as started by the view
(`last_count = 0`, `last_rank = 0`). -/
theorem rankLoop_chain_zero (l : List CountRow) :
    List.Chain'
      (fun a b => b.rank = if b.total_comments < a.total_comments then a.rank + 1 else a.rank)
      (rankLoop l 0 0) := by
  cases l with
  | nil => simp [rankLoop]
  | cons e rest =>
    simp only [rankLoop, if_pos (Or.inl rfl)]
    exact rankLoop_chain_aux rest ⟨e.movie_id, 0 + 1, e.total_comments⟩ (Nat.succ_ne_zero _)

/-- Started with `last_rank = 0`, the loop emits 1 as the first rank
(when there is a first record at all). -/
theorem rankLoop_head_rank (l : List CountRow) (lc : Nat) :
    (rankLoop l lc 0).head?.map RankedRow.rank = l.head?.map (fun _ => 1) := by
  cases l with
  | nil => rfl
  | cons e rest => simp [rankLoop]

/--
C10: fed any finite sequence of count rows, sorted or not, the
rank-assignment loop started at `last_count = 0, last_rank = 0` emits
records whose counts are the input counts, whose first rank is 1, and
where each record's rank is the previous record's rank plus one exactly
when its count is strictly below the previous record's count, and the
previous record's rank otherwise.
-/
theorem c10_thm (l : List CountRow) :
    (rankLoop l 0 0).head?.map RankedRow.rank = l.head?.map (fun _ => 1) ∧
    List.Chain'
      (fun a b => b.rank = if b.total_comments < a.total_comments then a.rank + 1 else a.rank)
      (rankLoop l 0 0) ∧
    (rankLoop l 0 0).map RankedRow.total_comments = l.map CountRow.total_comments :=
  ⟨rankLoop_head_rank l 0, rankLoop_chain_zero l, rankLoop_counts l 0 0⟩

/-- Started with `last_rank = 0`, the emitted head record (if any)
carries rank 1. -/
theorem rankLoop_head_self (l : List CountRow) (lc : Nat) :
    (rankLoop l lc 0).head?.map RankedRow.rank =
      (rankLoop l lc 0).head?.map (fun _ => 1) := by
  cases l with
  | nil => rfl
  | cons e rest => simp [rankLoop]

/--
C2: in every ranking response — whose records come out in
`total_comments`-descending order — the first record has rank 1, any
record whose count equals the preceding record's count shares that
record's rank, and any record whose count is strictly below the
preceding record's count gets the preceding rank plus exactly one
(never plus the size of the preceding tie group).
-/
theorem c2_thm (db : DB) (dateFrom dateTo : Option Int) :
    (topMovies db dateFrom dateTo).head?.map RankedRow.rank =
      (topMovies db dateFrom dateTo).head?.map (fun _ => 1) ∧
    List.Pairwise (fun a b => b.total_comments ≤ a.total_comments)
      (topMovies db dateFrom dateTo) ∧
    List.Chain'
      (fun a b =>
        (b.total_comments = a.total_comments → b.rank = a.rank) ∧
        (b.total_comments < a.total_comments → b.rank = a.rank + 1))
      (topMovies db dateFrom dateTo) := by
  refine ⟨rankLoop_head_self _ _, ?_, ?_⟩
  · have hsorted := List.sorted_insertionSort byCountDesc (baseRows db dateFrom dateTo)
    have h1 : List.Pairwise (fun a b : Nat => b ≤ a)
        ((sortDesc (baseRows db dateFrom dateTo)).map CountRow.total_comments) :=
      List.pairwise_map.mpr hsorted
    rw [← rankLoop_counts (sortDesc (baseRows db dateFrom dateTo)) 0 0] at h1
    exact List.pairwise_map.mp h1
  · refine List.Chain'.imp ?_
      (rankLoop_chain_zero (sortDesc (baseRows db dateFrom dateTo)))
    intro a b h
    constructor
    · intro heq
      simp [h, heq]
    · intro hlt
      simp [h, hlt]

/-- C2 witness: the rank chain at a concrete three-movie store. -/
theorem c2_witness :
    List.Chain'
      (fun a b =>
        (b.total_comments = a.total_comments → b.rank = a.rank) ∧
        (b.total_comments < a.total_comments → b.rank = a.rank + 1))
      (topMovies dbThree none none) :=
  (c2_thm dbThree none none).2.2

/-! ### Lemmas about the aggregated queryset -/

/-- Movie identifiers are carried through the loop untouched. -/
theorem rankLoop_ids (l : List CountRow) (lc lr : Nat) :
    (rankLoop l lc lr).map RankedRow.movie_id = l.map CountRow.movie_id := by
  induction l generalizing lc lr with
  | nil => rfl
  | cons e rest ih => simp [rankLoop, ih]

/-- Every aggregated row's count is the number of that movie's
qualifying comments. -/
theorem baseRows_mem (db : DB) (dateFrom dateTo : Option Int) (c : CountRow)
    (hc : c ∈ baseRows db dateFrom dateTo) :
    c.total_comments = countQualifying db dateFrom dateTo c.movie_id := by
  have hrows : c ∈ db.movies.map
      (fun m => (⟨m.id, countQualifying db dateFrom dateTo m.id⟩ : CountRow)) := by
    simp only [baseRows] at hc
    split at hc
    · exact hc
    · exact (List.mem_filter.mp hc).1
  obtain ⟨m, _, rfl⟩ := List.mem_map.mp hrows
  rfl

/-- The response rows carry, as a multiset, the identifier/count pairs
of the aggregated queryset (sorting and ranking only reorder and
decorate them). -/
theorem topMovies_pairs_perm (db : DB) (dateFrom dateTo : Option Int) :
    List.Perm
      ((topMovies db dateFrom dateTo).map (fun x => (x.movie_id, x.total_comments)))
      ((baseRows db dateFrom dateTo).map (fun c => (c.movie_id, c.total_comments))) := by
  have hperm : List.Perm (sortDesc (baseRows db dateFrom dateTo))
      (baseRows db dateFrom dateTo) :=
    List.perm_insertionSort byCountDesc (baseRows db dateFrom dateTo)
  have hmap := hperm.map (fun c : CountRow => (c.movie_id, c.total_comments))
  rw [← rankLoop_pairs (sortDesc (baseRows db dateFrom dateTo)) 0 0] at hmap
  exact hmap

/-- The emitted movie identifiers are a permutation of the aggregated
queryset's identifiers. -/
theorem topMovies_ids_perm (db : DB) (dateFrom dateTo : Option Int) :
    List.Perm
      ((topMovies db dateFrom dateTo).map RankedRow.movie_id)
      ((baseRows db dateFrom dateTo).map CountRow.movie_id) := by
  have hperm : List.Perm (sortDesc (baseRows db dateFrom dateTo))
      (baseRows db dateFrom dateTo) :=
    List.perm_insertionSort byCountDesc (baseRows db dateFrom dateTo)
  have hmap := hperm.map CountRow.movie_id
  rw [← rankLoop_ids (sortDesc (baseRows db dateFrom dateTo)) 0 0] at hmap
  exact hmap

/-- Filtering after a map is mapping after filtering the preimage. -/
theorem map_filter_comm {α β : Type} (f : α → β) (p : β → Bool) (l : List α) :
    (l.map f).filter p = (l.filter (fun a => p (f a))).map f := by
  induction l with
  | nil => rfl
  | cons a l ih =>
    by_cases h : p (f a) <;> simp [h, ih]

/--
C1 counterexample: a store holding one movie with no comments, queried
with a lower bound supplied, answers with an empty list — the stored
movie is not present with `total_comments` 0, refuting the claim that
every stored movie yields a record.  (The repo's own test
`test_top_movies_only_including_comments_with_insignificant_time_range`
pins down this dropping behavior, so the code is self-consistent.)
-/
theorem c1_counterexample :
    topMovies dbOneMovie (some 0) none = [] ∧ dbOneMovie.movies.length = 1 :=
  ⟨rfl, rfl⟩

/--
C1 (amended): every record's `total_comments` is the number of that
movie's comments whose creation time satisfies all supplied bounds, and
an empty movie set yields an empty list; when no bound is supplied the
response has exactly one record per stored movie (zero-comment movies
included with count 0), but when at least one bound is supplied the
response has exactly one record per movie with at least one qualifying
comment — movies with zero qualifying comments are dropped, not
reported with count 0.
-/
theorem c1_amended_thm (db : DB) (dateFrom dateTo : Option Int) :
    (∀ r ∈ topMovies db dateFrom dateTo,
        r.total_comments = countQualifying db dateFrom dateTo r.movie_id) ∧
    (dateFrom = none → dateTo = none →
        List.Perm ((topMovies db dateFrom dateTo).map RankedRow.movie_id)
          (db.movies.map Movie.id)) ∧
    (dateFrom ≠ none ∨ dateTo ≠ none →
        List.Perm ((topMovies db dateFrom dateTo).map RankedRow.movie_id)
          ((db.movies.filter
              (fun m => decide (0 < countQualifying db dateFrom dateTo m.id))).map
            Movie.id)) ∧
    (db.movies = [] → topMovies db dateFrom dateTo = []) := by
  refine ⟨?_, ?_, ?_, ?_⟩
  · intro r hr
    have hpair : (r.movie_id, r.total_comments) ∈
        (topMovies db dateFrom dateTo).map (fun x => (x.movie_id, x.total_comments)) :=
      List.mem_map_of_mem _ hr
    have hbase := (topMovies_pairs_perm db dateFrom dateTo).mem_iff.mp hpair
    obtain ⟨c, hc, hceq⟩ := List.mem_map.mp hbase
    obtain ⟨hid, hcnt⟩ := Prod.mk.injEq .. ▸ hceq
    rw [← hcnt, ← hid]
    exact baseRows_mem db dateFrom dateTo c hc
  · intro h1 h2
    subst h1; subst h2
    have hbase : baseRows db none none =
        db.movies.map (fun m => (⟨m.id, countQualifying db none none m.id⟩ : CountRow)) := by
      simp [baseRows]
    have h := topMovies_ids_perm db none none
    rw [hbase, List.map_map] at h
    simpa [Function.comp] using h
  · intro hb
    have hcond : (dateFrom.isNone && dateTo.isNone) = false := by
      rcases hb with h | h
      · cases dateFrom with
        | none => exact absurd rfl h
        | some a => simp
      · cases dateTo with
        | none => exact absurd rfl h
        | some b => simp
    have hbase : baseRows db dateFrom dateTo =
        (db.movies.map
            (fun m => (⟨m.id, countQualifying db dateFrom dateTo m.id⟩ : CountRow))).filter
          (fun r => decide (0 < r.total_comments)) := by
      simp [baseRows, hcond]
    have h := topMovies_ids_perm db dateFrom dateTo
    rw [hbase, map_filter_comm, List.map_map] at h
    simpa [Function.comp] using h
  · intro h
    simp [topMovies, baseRows, h, sortDesc, List.insertionSort, rankLoop]

/-- C1 witness: the amended theorem applied to the one-movie store with
a lower bound supplied. -/
theorem c1_witness :
    List.Perm ((topMovies dbOneMovie (some 0) none).map RankedRow.movie_id)
      ((dbOneMovie.movies.filter
          (fun m => decide (0 < countQualifying dbOneMovie (some 0) none m.id))).map
        Movie.id) :=
  (c1_amended_thm dbOneMovie (some 0) none).2.2.1 (Or.inl (Option.some_ne_none 0))

/-! ### Lemmas about the creation flow -/

/-- What the rating-attachment loop does to the store: exactly the
ratings that pass validation and whose save does not raise are appended,
in order; a failing rating is skipped without stopping the loop, and the
other relations are untouched. -/
theorem attachRatings_spec (env : Env) (mid : Nat) (rs : List RatingData) (db : DB) :
    (attachRatings env mid rs db).movies = db.movies ∧
    (attachRatings env mid rs db).comments = db.comments ∧
    (attachRatings env mid rs db).nextId = db.nextId ∧
    (attachRatings env mid rs db).ratings =
      db.ratings ++
        (rs.filter (fun r => env.ratingValid r && !env.ratingDataError r)).map
          (fun r => (⟨mid, r.Source, r.Value⟩ : Rating)) := by
  induction rs generalizing db with
  | nil => exact ⟨rfl, rfl, rfl, (List.append_nil _).symm⟩
  | cons r rest ih =>
    have hstep : attachRatings env mid (r :: rest) db =
        attachRatings env mid rest
          (if env.ratingValid r then
            if env.ratingDataError r then db
            else { db with ratings := db.ratings ++ [⟨mid, r.Source, r.Value⟩] }
          else db) := rfl
    rw [hstep]
    by_cases hv : env.ratingValid r
    · by_cases he : env.ratingDataError r
      · rw [if_pos hv, if_pos he]
        have h := ih db
        refine ⟨h.1, h.2.1, h.2.2.1, ?_⟩
        rw [h.2.2.2]
        congr 1
        simp [List.filter_cons, hv, he]
      · rw [if_pos hv, if_neg he]
        have h := ih { db with ratings := db.ratings ++ [⟨mid, r.Source, r.Value⟩] }
        refine ⟨h.1, h.2.1, h.2.2.1, ?_⟩
        rw [h.2.2.2]
        simp [List.filter_cons, hv, he]
    · rw [if_neg hv]
      have h := ih db
      refine ⟨h.1, h.2.1, h.2.2.1, ?_⟩
      rw [h.2.2.2]
      congr 1
      simp [List.filter_cons, hv]

/--
C7: a creation request whose body lacks a title is answered with status
400 and body `{"string": "Title is a required parameter"}`, the store is
untouched, and the metadata provider is never called — for every
environment whatsoever, so the outcome depends on no collaborator.
-/
theorem c7_thm (env : Env) (db : DB) :
    create env db none = (.resp 400 (.err "Title is a required parameter"), db, []) :=
  rfl

/-- C7 witness: the missing-title response on the empty store. -/
theorem c7_witness :
    create envOK dbEmpty none =
      (.resp 400 (.err "Title is a required parameter"), dbEmpty, []) :=
  c7_thm envOK dbEmpty

/--
C4 (the code, evaluated at the failing input): when the movie serializer
rejects the provider record, `MovieViewSet.create` evaluates `str(e)`
with `e` unbound, so the request dies with an unhandled `NameError`
instead of returning the claimed 400-with-detail response; no movie row
is written.
-/
theorem c4_thm :
    create envInvalid dbEmpty (some "Stranger Tides") =
      (.crash "NameError: name e is not defined", dbEmpty, ["Stranger Tides"]) :=
  rfl

/--
C6: when the movie is new and persisting it raises a storage-level
`DataError`, the operation answers 400 with the (stripped) storage error
text and the store is returned exactly as it was — no movie row, no
partial write.
-/
theorem c6_thm (env : Env) (db : DB) (t e : String)
    (hvalid : env.movieValidError ⟨(env.fetch t).Title, (env.fetch t).extra⟩ = none)
    (hnew : db.movies.find? (fun m => m.title == (env.fetch t).Title) = none)
    (herr : env.movieDataError ⟨(env.fetch t).Title, (env.fetch t).extra⟩ = some e) :
    create env db (some t) = (.resp 400 (.err e.trim), db, [t]) := by
  simp [create, hvalid, hnew, herr]

/-- C6 witness: the storage-failure scenario of
`test_broken_movie_data_returned`. -/
theorem c6_witness :
    create envDataErr dbEmpty (some "Stranger Tides") =
      (.resp 400 (.err " value too long for type character varying(128) ".trim),
       dbEmpty, ["Stranger Tides"]) :=
  c6_thm envDataErr dbEmpty "Stranger Tides"
    " value too long for type character varying(128) " rfl rfl rfl

/--
C3 counterexample: creating a brand-new movie from a provider record
carrying one rating persists the movie row but creates no rating row at
all — the rating-attachment loop lives only in the duplicate-title
branch of `MovieViewSet.create`, so "rating rows are created alongside
that movie creation" fails.
-/
theorem c3_counterexample :
    (create envOK dbEmpty (some "Citizen Kane")).2.1.ratings = [] ∧
    (envOK.fetch "Citizen Kane").Ratings.length = 1 ∧
    (create envOK dbEmpty (some "Citizen Kane")).2.1.movies = [⟨1, "Citizen Kane"⟩] :=
  ⟨rfl, rfl, rfl⟩

/--
C3 (amended): for every creation request whose canonical title is not
yet stored (and which passes validation and persistence), exactly one
new movie row is appended, bearing the provider's canonical title — but
no rating rows are created on this path; ratings are only attached when
the canonical title already names a stored movie.
-/
theorem c3_amended_thm (env : Env) (db : DB) (t : String)
    (hvalid : env.movieValidError ⟨(env.fetch t).Title, (env.fetch t).extra⟩ = none)
    (hnew : db.movies.find? (fun m => m.title == (env.fetch t).Title) = none)
    (hsave : env.movieDataError ⟨(env.fetch t).Title, (env.fetch t).extra⟩ = none) :
    (create env db (some t)).2.1.movies =
      db.movies ++ [⟨db.nextId, (env.fetch t).Title⟩] ∧
    (create env db (some t)).2.1.ratings = db.ratings := by
  simp [create, hvalid, hnew, hsave, saveMovie]

/-- C3 witness: one new movie row and zero new rating rows on the empty
store. -/
theorem c3_witness :
    (create envOK dbEmpty (some "Citizen Kane")).2.1.movies =
      dbEmpty.movies ++ [⟨dbEmpty.nextId, (envOK.fetch "Citizen Kane").Title⟩] ∧
    (create envOK dbEmpty (some "Citizen Kane")).2.1.ratings = dbEmpty.ratings :=
  c3_amended_thm envOK dbEmpty "Citizen Kane" rfl rfl rfl

/--
C5: when the canonical title already names a stored movie, no new movie
row is created, the response is still a 201 echoing the record, and each
provider rating (with the existing movie's id injected) is attached to
that movie, where a rating failing validation or raising on save is
silently skipped — only that rating is dropped, the loop runs to
completion, and no error reaches the response.
-/
theorem c5_thm (env : Env) (db : DB) (t : String) (movie : Movie)
    (hvalid : env.movieValidError ⟨(env.fetch t).Title, (env.fetch t).extra⟩ = none)
    (hdup : db.movies.find? (fun m => m.title == (env.fetch t).Title) = some movie) :
    (create env db (some t)).2.1.movies = db.movies ∧
    (create env db (some t)).1 =
      .resp 201 (.record (env.fetch t).Title (env.fetch t).extra
        ((env.fetch t).Ratings.map (fun r => { r with movie_id := some movie.id }))) ∧
    (create env db (some t)).2.1.ratings =
      db.ratings ++
        (((env.fetch t).Ratings.map (fun r => { r with movie_id := some movie.id })).filter
            (fun r => env.ratingValid r && !env.ratingDataError r)).map
          (fun r => (⟨movie.id, r.Source, r.Value⟩ : Rating)) := by
  have hatt := attachRatings_spec env movie.id
    ((env.fetch t).Ratings.map (fun r => { r with movie_id := some movie.id })) db
  have h2 : (create env db (some t)).2.1 =
      attachRatings env movie.id
        ((env.fetch t).Ratings.map (fun r => { r with movie_id := some movie.id })) db := by
    simp [create, hvalid, hdup]
  refine ⟨?_, ?_, ?_⟩
  · rw [h2]; exact hatt.1
  · simp [create, hvalid, hdup]
  · rw [h2]; exact hatt.2.2.2

/-- C5 witness: the duplicate-title request leaves the movie relation
unchanged. -/
theorem c5_witness :
    (create envOK dbCK (some "Citizen Kane")).2.1.movies = dbCK.movies :=
  (c5_thm envOK dbCK "Citizen Kane" ⟨1, "Citizen Kane"⟩ rfl rfl).1

/--
C8 counterexample: the same provider record answered on an empty store
and on a store already holding the movie yields two different 201
bodies — on the duplicate path every reattached rating carries the
injected `movie_id` key, so the body is not the provider's ratings list
verbatim and the response shape is not the same on both paths.
-/
theorem c8_counterexample :
    (create envOK dbEmpty (some "Citizen Kane")).1 ≠
      (create envOK dbCK (some "Citizen Kane")).1 ∧
    (create envOK dbCK (some "Citizen Kane")).1 =
      .resp 201 (.record "Citizen Kane" [("Production", "RKO Radio Pictures")]
        [⟨"Internet Movie Database", "8.4/10", some 1⟩]) :=
  ⟨by decide, by decide⟩

/--
C8 (amended): every successful creation answers 201 with the provider
record and its ratings reattached under `Ratings`; on the new-movie path
the ratings are exactly as fetched, while on the duplicate path each
rating additionally carries the existing movie's identifier injected
before validation, so the two paths' bodies differ whenever ratings are
present.
-/
theorem c8_amended_thm (env : Env) (db : DB) (t : String)
    (hvalid : env.movieValidError ⟨(env.fetch t).Title, (env.fetch t).extra⟩ = none) :
    (db.movies.find? (fun m => m.title == (env.fetch t).Title) = none →
      env.movieDataError ⟨(env.fetch t).Title, (env.fetch t).extra⟩ = none →
      (create env db (some t)).1 =
        .resp 201 (.record (env.fetch t).Title (env.fetch t).extra
          (env.fetch t).Ratings)) ∧
    (∀ movie : Movie,
      db.movies.find? (fun m => m.title == (env.fetch t).Title) = some movie →
      (create env db (some t)).1 =
        .resp 201 (.record (env.fetch t).Title (env.fetch t).extra
          ((env.fetch t).Ratings.map (fun r => { r with movie_id := some movie.id })))) := by
  constructor
  · intro hnew hsave
    simp [create, hvalid, hnew, hsave]
  · intro movie hdup
    simp [create, hvalid, hdup]

/-- C8 witness: the new-movie 201 body on the empty store. -/
theorem c8_witness :
    (create envOK dbEmpty (some "Citizen Kane")).1 =
      .resp 201 (.record (envOK.fetch "Citizen Kane").Title
        (envOK.fetch "Citizen Kane").extra (envOK.fetch "Citizen Kane").Ratings) :=
  (c8_amended_thm envOK dbEmpty "Citizen Kane" rfl).1 rfl rfl

/-! ### Lemmas about the listing filter -/

/-- `leadMatch` succeeds exactly when the haystack starts with the
needle. -/
theorem leadMatch_iff (n : List Char) : ∀ l : List Char,
    leadMatch n l = true ↔ ∃ s, l = n ++ s := by
  induction n with
  | nil =>
    intro l
    simp [leadMatch]
  | cons a ns ih =>
    intro l
    cases l with
    | nil => simp [leadMatch]
    | cons b bs =>
      rw [show leadMatch (a :: ns) (b :: bs) = (a == b && leadMatch ns bs) from rfl]
      rw [Bool.and_eq_true, beq_iff_eq, ih bs]
      constructor
      · rintro ⟨rfl, s, rfl⟩
        exact ⟨s, rfl⟩
      · rintro ⟨s, hs⟩
        rw [List.cons_append] at hs
        injection hs with h1 h2
        exact ⟨h1.symm, s, h2⟩

/-- `hasSub` succeeds exactly when the needle occurs contiguously in the
haystack. -/
theorem hasSub_iff (n : List Char) : ∀ l : List Char,
    hasSub n l = true ↔ ∃ p s, l = p ++ n ++ s := by
  intro l
  induction l with
  | nil =>
    simp [hasSub, List.isEmpty_iff]
  | cons h hs ih =>
    rw [show hasSub n (h :: hs) = (leadMatch n (h :: hs) || hasSub n hs) from rfl]
    rw [Bool.or_eq_true, leadMatch_iff, ih]
    constructor
    · rintro (⟨s, hs'⟩ | ⟨p, s, hp⟩)
      · exact ⟨[], s, by simpa using hs'⟩
      · exact ⟨h :: p, s, by rw [hp]; rfl⟩
    · rintro ⟨p, s, hp⟩
      cases p with
      | nil => exact Or.inl ⟨s, by simpa using hp⟩
      | cons a p' =>
        rw [List.cons_append, List.cons_append] at hp
        injection hp with h1 h2
        exact Or.inr ⟨p', s, h2⟩

/--
C9: with a title parameter supplied, listing returns exactly the stored
movies whose title contains the parameter as a case-insensitive
substring; with it absent, all stored movies; and in either case the
store is returned unchanged — the operation writes nothing.
-/
theorem c9_thm (db : DB) (t : String) :
    (∀ m : Movie, m ∈ (listMovies db (some t)).1 ↔
        m ∈ db.movies ∧ ∃ p s, lowerChars m.title = p ++ lowerChars t ++ s) ∧
    (listMovies db none).1 = db.movies ∧
    (∀ tp : Option String, (listMovies db tp).2 = db) := by
  refine ⟨?_, rfl, ?_⟩
  · intro m
    rw [show (listMovies db (some t)).1 =
        db.movies.filter (fun m => icontains m.title t) from rfl]
    rw [List.mem_filter]
    rw [show icontains m.title t = hasSub (lowerChars t) (lowerChars m.title) from rfl]
    rw [hasSub_iff]
  · intro tp
    cases tp <;> rfl

/-- C9 witness: a movie found through the case-insensitive filter, and
the store untouched by listing. -/
theorem c9_witness :
    ((⟨1, "Godfather"⟩ : Movie) ∈ (listMovies dbOneMovie (some "God")).1) ∧
    (listMovies dbOneMovie (some "God")).2 = dbOneMovie :=
  ⟨((c9_thm dbOneMovie "God").1 ⟨1, "Godfather"⟩).mpr
      ⟨by decide, ⟨[], ['f', 'a', 't', 'h', 'e', 'r'], by decide⟩⟩,
   (c9_thm dbOneMovie "God").2.2 (some "God")⟩

end Rzepa
